import Mathlib

/-!
A shallow embedding of the PA1010 GPS driver (`gps/pa1010.py`) and its display
client (`gps/gps.py`).

Conventions of the embedding:
* Characters/bytes on the wire are modelled as `Char` (for sentence text) or
  `ℕ` (for raw outgoing byte buffers); all bytes of interest are ASCII.
* Python `float` values that arise here are exact decimal literals, so they are
  modelled as `ℚ`.
* A Python attribute that does not exist until first assignment (e.g.
  `self.hour`, assigned only by `_set_data_from_rmc`) is modelled as an
  `Option` field that is `none` until first assignment.
* The two compiled regular expressions `GGA_DECODE` and `RMC_DECODE` are
  translated into deterministic left-to-right parsers.  This is faithful
  because in both patterns every repeated character class (`\d+`, `[0-9.]+`,
  `[^,]+`) excludes the delimiter that follows it, so Python's backtracking
  matcher accepts exactly when the maximal-munch parse accepts, with the same
  group boundaries.
* `re.match` anchors at the start of the string only; the parsers therefore
  return the unexamined remainder of the input alongside the groups.
* A Python exception escaping a modelled function (only `ValueError` from
  `float(...)` can) is modelled by a `Bool` flag `true` paired with the state
  as mutated so far, since field assignments before the raise do persist.
-/

namespace PA1010

/-- A parser over sentence characters: returns the parsed value and the
unconsumed remainder, or `none` when the pattern does not match here. -/
def Parser (α : Type) : Type := List Char → Option (α × List Char)

/-- Succeed without consuming input. -/
def ppure {α : Type} (v : α) : Parser α := fun s => some (v, s)

/-- Sequencing of parsers (monadic bind on `Parser`). -/
def pseq {α β : Type} (P : Parser α) (Q : α → Parser β) : Parser β := fun s =>
  match P s with
  | none => none
  | some (v, r) => Q v r

/-- Match a literal character sequence (the fixed text of the regex). -/
def plits : List Char → Parser Unit
  | [], s => some ((), s)
  | c :: cs, s =>
    match s with
    | [] => none
    | d :: ds => if d = c then plits cs ds else none

/-- Match one character satisfying a class, e.g. `[NS]` or `[AV]`. -/
def pclass1 (cl : Char → Bool) : Parser Char := fun s =>
  match s with
  | c :: r => if cl c then some (c, r) else none
  | [] => none

/-- Match exactly `n` digit characters, e.g. `(\d\d)`. -/
def pdigits (n : ℕ) : Parser (List Char) := fun s =>
  if (s.take n).length = n ∧ (s.take n).all Char.isDigit then
    some (s.take n, s.drop n)
  else none

/-- Match a maximal nonempty run of characters of class `cl` followed by the
delimiter `d`, consuming the delimiter; e.g. `(\d+)\.` or `([0-9.]+),`.
Correct translation of the regex piece whenever `cl d = false`. -/
def pfield (cl : Char → Bool) (d : Char) : Parser (List Char) := fun s =>
  if (s.takeWhile cl).isEmpty then none
  else
    match s.dropWhile cl with
    | d' :: r => if d' = d then some (s.takeWhile cl, r) else none
    | [] => none

/-- Character class `[0-9.]`. -/
def isNumCh (c : Char) : Bool := c.isDigit || c == '.'

/-- The groups captured by `GGA_DECODE`
(`\$GNGGA,(\d\d)(\d\d)(\d\d)\.(\d\d\d),(\d+\.\d+),([NS]),(\d+\.\d+),([EW]),(\d),(\d+),[^,]+,([0-9.]+),`). -/
structure GgaGroups where
  hh : List Char
  mm : List Char
  ss : List Char
  fff : List Char
  lat : List Char
  latNS : Char
  lon : List Char
  lonEW : Char
  quality : List Char
  sats : List Char
  alt : List Char
deriving DecidableEq

/-- The groups captured by `RMC_DECODE`
(`\$GNRMC,(\d\d)(\d\d)(\d\d)\.(\d\d\d),([AV]),(\d+\.\d+),([NS]),(\d+\.\d+),([EW]),([0-9.]+),([0-9.]+),(\d\d)(\d\d)(\d\d),`). -/
structure RmcGroups where
  hh : List Char
  mm : List Char
  ss : List Char
  fff : List Char
  status : Char
  lat : List Char
  latNS : Char
  lon : List Char
  lonEW : Char
  speed : List Char
  heading : List Char
  dd : List Char
  mon : List Char
  yy : List Char
deriving DecidableEq

/-- `GGA_DECODE.match(buf)`: anchored match of the fix-quality sentence
pattern.  A `(\d+\.\d+)` group is parsed as digits, `.`, digits and the
captured text reassembled with the dot. -/
def GGA_DECODE : Parser GgaGroups :=
  pseq (plits ("$GNGGA,").toList) fun _ =>
  pseq (pdigits 2) fun hh =>
  pseq (pdigits 2) fun mm =>
  pseq (pdigits 2) fun ss =>
  pseq (pclass1 (fun c => c == '.')) fun _ =>
  pseq (pdigits 3) fun fff =>
  pseq (pclass1 (fun c => c == ',')) fun _ =>
  pseq (pfield Char.isDigit '.') fun latA =>
  pseq (pfield Char.isDigit ',') fun latB =>
  pseq (pclass1 (fun c => c == 'N' || c == 'S')) fun latNS =>
  pseq (pclass1 (fun c => c == ',')) fun _ =>
  pseq (pfield Char.isDigit '.') fun lonA =>
  pseq (pfield Char.isDigit ',') fun lonB =>
  pseq (pclass1 (fun c => c == 'E' || c == 'W')) fun lonEW =>
  pseq (pclass1 (fun c => c == ',')) fun _ =>
  pseq (pdigits 1) fun quality =>
  pseq (pclass1 (fun c => c == ',')) fun _ =>
  pseq (pfield Char.isDigit ',') fun sats =>
  pseq (pfield (fun c => c != ',') ',') fun _hdop =>
  pseq (pfield isNumCh ',') fun alt =>
  ppure { hh := hh, mm := mm, ss := ss, fff := fff,
          lat := latA ++ '.' :: latB, latNS := latNS,
          lon := lonA ++ '.' :: lonB, lonEW := lonEW,
          quality := quality, sats := sats, alt := alt }

/-- `RMC_DECODE.match(buf)`: anchored match of the time/position sentence
pattern. -/
def RMC_DECODE : Parser RmcGroups :=
  pseq (plits ("$GNRMC,").toList) fun _ =>
  pseq (pdigits 2) fun hh =>
  pseq (pdigits 2) fun mm =>
  pseq (pdigits 2) fun ss =>
  pseq (pclass1 (fun c => c == '.')) fun _ =>
  pseq (pdigits 3) fun fff =>
  pseq (pclass1 (fun c => c == ',')) fun _ =>
  pseq (pclass1 (fun c => c == 'A' || c == 'V')) fun status =>
  pseq (pclass1 (fun c => c == ',')) fun _ =>
  pseq (pfield Char.isDigit '.') fun latA =>
  pseq (pfield Char.isDigit ',') fun latB =>
  pseq (pclass1 (fun c => c == 'N' || c == 'S')) fun latNS =>
  pseq (pclass1 (fun c => c == ',')) fun _ =>
  pseq (pfield Char.isDigit '.') fun lonA =>
  pseq (pfield Char.isDigit ',') fun lonB =>
  pseq (pclass1 (fun c => c == 'E' || c == 'W')) fun lonEW =>
  pseq (pclass1 (fun c => c == ',')) fun _ =>
  pseq (pfield isNumCh ',') fun speed =>
  pseq (pfield isNumCh ',') fun heading =>
  pseq (pdigits 2) fun dd =>
  pseq (pdigits 2) fun mon =>
  pseq (pdigits 2) fun yy =>
  pseq (pclass1 (fun c => c == ',')) fun _ =>
  ppure { hh := hh, mm := mm, ss := ss, fff := fff, status := status,
          lat := latA ++ '.' :: latB, latNS := latNS,
          lon := lonA ++ '.' :: lonB, lonEW := lonEW,
          speed := speed, heading := heading, dd := dd, mon := mon, yy := yy }

/-- Python `int(s)` on a string of decimal digits. -/
def digitsToNat (l : List Char) : ℕ := l.foldl (fun a c => 10 * a + (c.toNat - 48)) 0

/-- Python `float(s)` for a string over the characters `[0-9.]` (the only
strings it is applied to here, via the `([0-9.]+)` groups): defined exactly
when there is at least one digit and at most one dot, yielding the exact
decimal value; `none` models the `ValueError` raise. -/
def parseFloat (l : List Char) : Option ℚ :=
  if l.all isNumCh ∧ l.count '.' ≤ 1 ∧ l.any Char.isDigit then
    let ip := l.takeWhile (fun c => c != '.')
    let fp := (l.dropWhile (fun c => c != '.')).drop 1
    some (mkRat (digitsToNat ip * 10 ^ fp.length + digitsToNat fp) (10 ^ fp.length))
  else none

/-- The mutable state of a `PA1010` object (the Fix Record).  `valid`,
`satellites` and `altitude` are assigned in `__init__`; every other data
attribute first comes into existence in `_set_data_from_rmc`, hence the
`Option` type. -/
structure State where
  valid : Bool
  satellites : ℕ
  altitude : ℚ
  hour : Option ℕ
  minute : Option ℕ
  second : Option ℕ
  milli : Option ℕ
  lat : Option (List Char)
  latNS : Option Char
  lon : Option (List Char)
  lonEW : Option Char
  speed : Option ℚ
  heading : Option ℚ
  day : Option ℕ
  month : Option ℕ
  year : Option ℕ
deriving DecidableEq

/-- The Fix Record as `__init__` leaves it (data attributes only; the bus
handshake commands it sends are modelled separately). -/
def initState : State :=
  { valid := false, satellites := 0, altitude := 0,
    hour := none, minute := none, second := none, milli := none,
    lat := none, latNS := none, lon := none, lonEW := none,
    speed := none, heading := none, day := none, month := none, year := none }

/-- `_set_data_from_rmc(self, m)`.  Assignments happen in source order; the
`Bool` is `true` when `float(...)` raised, with the state keeping every
assignment made before the raise. -/
def set_data_from_rmc (st : State) (g : RmcGroups) : State × Bool :=
  let st1 := { st with hour := some (digitsToNat g.hh),
                       minute := some (digitsToNat g.mm),
                       second := some (digitsToNat g.ss),
                       milli := some (digitsToNat g.fff) }
  let st2 := { st1 with valid := g.status = 'A' }
  let st3 := { st2 with lat := some g.lat, latNS := some g.latNS,
                        lon := some g.lon, lonEW := some g.lonEW }
  match parseFloat g.speed with
  | none => (st3, true)
  | some sp =>
    let st4 := { st3 with speed := some sp }
    match parseFloat g.heading with
    | none => (st4, true)
    | some hd =>
      let st5 := { st4 with heading := some hd }
      ({ st5 with day := some (digitsToNat g.dd),
                  month := some (digitsToNat g.mon),
                  year := some (digitsToNat g.yy + 2000) }, false)

/-- `_set_data_from_gga(self, m)`: only `satellites` and `altitude` are
assigned (the time/position assignments are commented out in the source). -/
def set_data_from_gga (st : State) (g : GgaGroups) : State × Bool :=
  let st1 := { st with satellites := digitsToNat g.sats }
  match parseFloat g.alt with
  | none => (st1, true)
  | some a => ({ st1 with altitude := a }, false)

/-- `_decode_sentence(self, buf)`: try the GGA pattern first, then RMC; a
sentence matching neither is ignored. -/
def decode_sentence (st : State) (buf : List Char) : State × Bool :=
  match GGA_DECODE buf with
  | some (g, _) => set_data_from_gga st g
  | none =>
    match RMC_DECODE buf with
    | some (g, _) => set_data_from_rmc st g
    | none => (st, false)

/-! ### `set_update_rate` -/

/-- Python `int(q)` for a rational `q`: truncation toward zero. -/
def pyIntTrunc (q : ℚ) : ℤ := if 0 ≤ q then ⌊q⌋ else -⌊-q⌋

/-- The millisecond value computed by `set_update_rate(seconds_per_update)`:
`ms = int(seconds * 1000)`, then raise to `1000` if below `1000`, lower to
`10000` if above `10000`. -/
def set_update_rate_ms (seconds_per_update : ℚ) : ℤ :=
  let ms := pyIntTrunc (seconds_per_update * 1000)
  let ms := if ms < 1000 then 1000 else ms
  if ms > 10000 then 10000 else ms

/-- The command string `set_update_rate` passes to `send_command`. -/
def set_update_rate_cmd (seconds_per_update : ℚ) : String :=
  "PMTK220," ++ toString (set_update_rate_ms seconds_per_update) ++ ",0,0,0,0"

/-! ### `send_command` -/

/-- One uppercase hexadecimal digit, as `"{:02X}".format` renders nibbles. -/
def upperHexDigit (n : ℕ) : Char :=
  if n < 10 then Char.ofNat (48 + n) else Char.ofNat (55 + n)

/-- The XOR checksum loop of `send_command`. -/
def nmeaChecksum (command : List ℕ) : ℕ := command.foldl (fun a b => a ^^^ b) 0

/-- The byte buffer `send_command(command, add_checksum)` writes to the bus:
`$`, the payload bytes (each is a byte, i.e. `< 256`, since the payload is a
Python `bytes`/`str.encode("ascii")` value), optionally `*` plus the two
uppercase hex digits of the XOR checksum, then `\r\n`. -/
def send_command_buf (command : List ℕ) (add_checksum : Bool) : List ℕ :=
  let base := 36 :: command
  let withCk :=
    if add_checksum then
      base ++ [42, (upperHexDigit (nmeaChecksum command / 16)).toNat,
                   (upperHexDigit (nmeaChecksum command % 16)).toNat]
    else base
  withCk ++ [13, 10]

/-! ### `read_sentence`

The byte-read loop is modelled on a finite trace of `(time, byte)` pairs:
the `i`-th loop iteration finds elapsed time `tᵢ` (the value of
`ticks_diff(ticks_ms(), start)` at the loop condition) and then reads byte
`cᵢ`.  Bytes are `Char`s (the device emits ASCII; `decode("ascii")` is the
identity on them).  Result: `some (some s)` — a sentence was returned;
`some none` — the loop condition failed and `GPSTimeoutError` was raised;
`none` — the trace was exhausted before either happened (the real loop would
keep reading past the modelled trace). -/

/-- `buf[-2:] == b"\r\n"`. -/
def endsCRLF (l : List Char) : Bool :=
  match l.reverse with
  | lf :: cr :: _ => lf == '\n' && cr == '\r'
  | _ => false

/-- Python `str.strip()` whitespace class (ASCII part). -/
def isPySpace (c : Char) : Bool :=
  c == ' ' || c == '\t' || c == '\n' || c == '\r' || c == '\x0b' || c == '\x0c'

/-- Python `s.strip()`. -/
def pyStrip (l : List Char) : List Char :=
  ((l.dropWhile isPySpace).reverse.dropWhile isPySpace).reverse

/-- `buf.decode("ascii").strip().replace("\n", "")`. -/
def cleanBuf (l : List Char) : List Char :=
  (pyStrip l).filter (fun c => c != '\n')

/-- The `read_sentence` loop.  `dl` is the current `timeout` variable; `buf`
the accumulated buffer. -/
def readSentenceAux : List (ℕ × Char) → ℕ → List Char → Option (Option (List Char))
  | [], _, _ => none
  | (tm, c) :: rest, dl, buf =>
    if tm < dl then
      if buf.isEmpty && c != '$' then
        readSentenceAux rest dl buf
      else
        let dl' := if buf.isEmpty then dl + 100 else dl
        let buf' := buf ++ [c]
        if endsCRLF buf' then some (some (cleanBuf buf'))
        else readSentenceAux rest dl' buf'
    else some none

/-- `read_sentence(timeout)` on a trace of timed byte reads. -/
def read_sentence (trace : List (ℕ × Char)) (timeout : ℕ) : Option (Option (List Char)) :=
  readSentenceAux trace timeout []

/-! ### `update` -/

/-- The outcome of one `read_sentence()` call inside `update`'s loop:
a sentence, a `GPSTimeoutError`, or an `OSError` from the bus. -/
inductive ReadResult where
  | ok (s : List Char)
  | timeout
  | unavailable
deriving DecidableEq

/-- `update(self)`: loop `_decode_sentence(self.read_sentence())` until a
`GPSTimeoutError`/`OSError` stops it, then return `self.valid`.  Result
`some (st, v)` is the state and return value on normal return; `none` when
the modelled trace ends without a stop, or a decode exception (uncaught
`ValueError`) escapes `update`. -/
def updateLoop (st : State) : List ReadResult → Option (State × Bool)
  | [] => none
  | .timeout :: _ => some (st, st.valid)
  | .unavailable :: _ => some (st, st.valid)
  | .ok s :: rest =>
    match decode_sentence st s with
    | (st', false) => updateLoop st' rest
    | (_, true) => none

/-! ### Spec-side definitions (formalised from the spec text, for the claims
that compare code behaviour against a declarative description) -/

/-- Spec-side description of a successful `read_sentence` call on a trace:
the trace splits as discarded garbage (no `$`, each byte read while elapsed
time is still below `timeout`), then the accepted `$`, then the run that
first completes the `\r\n` terminator, each of its bytes read while elapsed
time is below the extended deadline `timeout + 100`; the output is the
assembled buffer cleaned of terminator and stray newlines. -/
def SpecSuccess (trace : List (ℕ × Char)) (timeout : ℕ) (out : List Char) : Prop :=
  ∃ g tk run rest,
    trace = g ++ (tk, '$') :: run ++ rest ∧
    (∀ p ∈ g, p.2 ≠ '$' ∧ p.1 < timeout) ∧
    tk < timeout ∧
    (∀ p ∈ run, p.1 < timeout + 100) ∧
    endsCRLF ('$' :: run.map Prod.snd) = true ∧
    (∀ r1 r2, run = r1 ++ r2 → r2 ≠ [] → endsCRLF ('$' :: r1.map Prod.snd) = false) ∧
    out = cleanBuf ('$' :: run.map Prod.snd)

/-- A parser is prefix-stable when a successful parse consumes a determined
prefix of the input and neither inspects nor depends on what follows it.
This is the formal sense in which the decoder ignores everything after the
matched fields — in particular the `*XX` checksum suffix. -/
def PStable {α : Type} (P : Parser α) : Prop :=
  ∀ s v rem, P s = some (v, rem) →
    ∃ pre, s = pre ++ rem ∧ ∀ rem', P (pre ++ rem') = some (v, rem')

/-- Numeric value of an uppercase hexadecimal digit character. -/
def hexVal (c : Char) : ℕ := if c.isDigit then c.toNat - 48 else c.toNat - 55

/-- Uppercase hexadecimal digit characters `0`-`9`, `A`-`F`. -/
def isUpperHexCh (c : Char) : Bool := c.isDigit || ('A' ≤ c && c ≤ 'F')

end PA1010


namespace PA1010

/-! ## Helper lemmas -/

theorem plits_sound : ∀ (ls s r : List Char), plits ls s = some ((), r) → s = ls ++ r := by
  intro ls
  induction ls with
  | nil => intro s r h; simpa [plits] using h
  | cons c cs ih =>
    intro s r h
    cases s with
    | nil => simp [plits] at h
    | cons d ds =>
      by_cases hd : d = c
      · subst hd
        simp only [plits, if_pos rfl] at h
        simpa using ih ds r h
      · simp [plits, hd] at h

/-! ## Claim theorems -/

/-- C1 (code bug): `set_update_rate` clamps the millisecond rate to the range
[1000, 10000], not [100, 10000]: an input of 0.01 s (and even the claimed
lower boundary 0.1 s) produces the 1-second command `PMTK220,1000,0,0,0,0`,
not the 0.1-second command, while 99 s does produce the 10-second command. -/
theorem set_update_rate_low_clamp_is_1s :
    set_update_rate_ms (1/100) = 1000 ∧
    set_update_rate_cmd (1/100) = "PMTK220,1000,0,0,0,0" ∧
    set_update_rate_ms (1/10) = 1000 ∧
    set_update_rate_ms 99 = 10000 ∧
    set_update_rate_cmd 99 = "PMTK220,10000,0,0,0,0" := by
  have h1 : set_update_rate_ms (1/100) = 1000 := by
    norm_num [set_update_rate_ms, pyIntTrunc]
  have h2 : set_update_rate_ms (1/10) = 1000 := by
    norm_num [set_update_rate_ms, pyIntTrunc]
  have h3 : set_update_rate_ms 99 = 10000 := by
    norm_num [set_update_rate_ms, pyIntTrunc]
  refine ⟨h1, ?_, h2, h3, ?_⟩
  · rw [set_update_rate_cmd, h1]; rfl
  · rw [set_update_rate_cmd, h3]; rfl

/-- C9 counterexample: at session creation the claim "all numeric fields
(altitude, satellite count, hour, minute, second, day, month, year, speed,
heading) zeroed" fails — `__init__` assigns only `valid`, `satellites` and
`altitude`; the time/position attributes do not exist yet (are `none`),
so in particular `hour` is not the value `0`. -/
theorem initState_not_all_zeroed :
    ¬ (initState.valid = false ∧ initState.satellites = 0 ∧
       initState.altitude = 0 ∧ initState.hour = some 0 ∧
       initState.minute = some 0 ∧ initState.second = some 0 ∧
       initState.day = some 0 ∧ initState.month = some 0 ∧
       initState.year = some 0 ∧ initState.speed = some 0 ∧
       initState.heading = some 0) := by
  intro h
  exact Option.noConfusion (h.2.2.2.1)

/-- C9 (amended): at session creation the Fix Record has `is_valid = false`,
`satellites_tracked = 0` and `altitude_meters = 0`; every other decoded field
(hour, minute, second, fractional second, latitude/longitude texts and
hemispheres, speed, heading, day, month, year) is absent (`none`) until the
first time/position sentence is decoded. -/
theorem initState_spec :
    initState.valid = false ∧ initState.satellites = 0 ∧
    initState.altitude = 0 ∧ initState.hour = none ∧
    initState.minute = none ∧ initState.second = none ∧
    initState.milli = none ∧ initState.lat = none ∧
    initState.latNS = none ∧ initState.lon = none ∧
    initState.lonEW = none ∧ initState.speed = none ∧
    initState.heading = none ∧ initState.day = none ∧
    initState.month = none ∧ initState.year = none := by
  refine ⟨rfl, rfl, rfl, rfl, rfl, rfl, rfl, rfl, rfl, rfl, rfl, rfl, rfl, rfl, rfl, rfl⟩

/-- C8: a sentence matching neither the GGA pattern nor the RMC pattern is
silently ignored: `_decode_sentence` raises nothing and returns every field
of the Fix Record unchanged. -/
theorem decode_unmatched_noop (st : State) (buf : List Char)
    (h1 : GGA_DECODE buf = none) (h2 : RMC_DECODE buf = none) :
    decode_sentence st buf = (st, false) := by
  unfold decode_sentence
  rw [h1, h2]

/-- C8 witness: the `$GNGSA` sentence from the spec matches neither pattern
and leaves the initial Fix Record untouched. -/
theorem decode_unmatched_noop_witness :
    GGA_DECODE ("$GNGSA,A,3,05,07,08,,,,,,,,,,2.5,1.3,2.1*39").toList = none ∧
    RMC_DECODE ("$GNGSA,A,3,05,07,08,,,,,,,,,,2.5,1.3,2.1*39").toList = none ∧
    decode_sentence initState ("$GNGSA,A,3,05,07,08,,,,,,,,,,2.5,1.3,2.1*39").toList
      = (initState, false) :=
  ⟨by decide, by decide,
   decode_unmatched_noop initState ("$GNGSA,A,3,05,07,08,,,,,,,,,,2.5,1.3,2.1*39").toList
     (by decide) (by decide)⟩

end PA1010

namespace PA1010

/-! ## Shared lemmas about the decoder -/

theorem set_data_from_rmc_eq (st : State) (g : RmcGroups) (sp hd : ℚ)
    (hsp : parseFloat g.speed = some sp) (hhd : parseFloat g.heading = some hd) :
    set_data_from_rmc st g =
      ({ st with hour := some (digitsToNat g.hh), minute := some (digitsToNat g.mm),
                 second := some (digitsToNat g.ss), milli := some (digitsToNat g.fff),
                 valid := decide (g.status = 'A'),
                 lat := some g.lat, latNS := some g.latNS,
                 lon := some g.lon, lonEW := some g.lonEW,
                 speed := some sp, heading := some hd,
                 day := some (digitsToNat g.dd), month := some (digitsToNat g.mon),
                 year := some (digitsToNat g.yy + 2000) }, false) := by
  unfold set_data_from_rmc
  rw [hsp, hhd]

theorem set_data_from_gga_eq_some (st : State) (g : GgaGroups) (a : ℚ)
    (ha : parseFloat g.alt = some a) :
    set_data_from_gga st g =
      ({ st with satellites := digitsToNat g.sats, altitude := a }, false) := by
  unfold set_data_from_gga
  rw [ha]

theorem set_data_from_gga_eq_none (st : State) (g : GgaGroups)
    (ha : parseFloat g.alt = none) :
    set_data_from_gga st g =
      ({ st with satellites := digitsToNat g.sats }, true) := by
  unfold set_data_from_gga
  rw [ha]

theorem gga_none_of_rmc (buf : List Char) (x : RmcGroups × List Char)
    (h : RMC_DECODE buf = some x) : GGA_DECODE buf = none := by
  have hpl : ∃ r, plits ("$GNRMC,").toList buf = some ((), r) := by
    unfold RMC_DECODE pseq at h
    cases hq : plits ("$GNRMC,").toList buf with
    | none => rw [hq] at h; exact absurd h (by simp)
    | some vr =>
      obtain ⟨u, r⟩ := vr
      cases u
      exact ⟨r, rfl⟩
  obtain ⟨r, hr⟩ := hpl
  have hbuf : buf = ("$GNRMC,").toList ++ r := plits_sound _ _ _ hr
  subst hbuf
  have hGN : ("$GNRMC,").toList = ['$', 'G', 'N', 'R', 'M', 'C', ','] := by decide
  have hGG : ("$GNGGA,").toList = ['$', 'G', 'N', 'G', 'G', 'A', ','] := by decide
  rw [hGN]
  unfold GGA_DECODE pseq
  rw [hGG]
  simp [plits]

/-- C2 counterexample: the spec's example sentence has a two-digit fractional
second (`123519.00`) while `RMC_DECODE` demands exactly three (`\.(\d\d\d)`),
so decoding it is a no-op — `is_valid` stays `false` instead of becoming
`true`; moreover even with a three-digit fraction the two-digit year `94`
becomes `2094` (the code adds 2000), not the claimed 1994. -/
theorem rmc_spec_example_refuted :
    decode_sentence initState
        ("$GNRMC,123519.00,A,4807.038,N,01131.000,E,022.4,084.4,230394,,*XX").toList
      = (initState, false) ∧
    (decode_sentence initState
        ("$GNRMC,123519.00,A,4807.038,N,01131.000,E,022.4,084.4,230394,,*XX").toList).1.valid
      = false ∧
    (decode_sentence initState
        ("$GNRMC,123519.000,A,4807.038,N,01131.000,E,022.4,084.4,230394,,*XX").toList).1.year
      = some 2094 :=
  ⟨by decide, by decide, by decide⟩

/-- C2 (amended): decoding the example sentence written with the three
fractional-second digits the pattern requires,
`$GNRMC,123519.000,A,4807.038,N,01131.000,E,022.4,084.4,230394,,*XX`, sets
`is_valid = true`, time 12:35:19.000, date 2094-03-23 (two-digit year plus
the fixed 2000 offset), latitude text `4807.038` hemisphere N, longitude
text `01131.000` hemisphere E, speed 22.4 knots and heading 84.4 degrees,
and leaves `satellites_tracked` and `altitude_meters` (and nothing else)
unchanged, for every prior state. -/
theorem rmc_spec_example_amended (st : State) :
    decode_sentence st
        ("$GNRMC,123519.000,A,4807.038,N,01131.000,E,022.4,084.4,230394,,*XX").toList =
      ({ st with valid := true,
                 hour := some 12, minute := some 35, second := some 19, milli := some 0,
                 lat := some ("4807.038").toList, latNS := some 'N',
                 lon := some ("01131.000").toList, lonEW := some 'E',
                 speed := some (mkRat 224 10), heading := some (mkRat 844 10),
                 day := some 23, month := some 3, year := some 2094 }, false) := by
  have hg : GGA_DECODE ("$GNRMC,123519.000,A,4807.038,N,01131.000,E,022.4,084.4,230394,,*XX").toList = none := by decide
  have hr : RMC_DECODE ("$GNRMC,123519.000,A,4807.038,N,01131.000,E,022.4,084.4,230394,,*XX").toList =
      some ({ hh := ("12").toList, mm := ("35").toList, ss := ("19").toList,
              fff := ("000").toList, status := 'A',
              lat := ("4807.038").toList, latNS := 'N',
              lon := ("01131.000").toList, lonEW := 'E',
              speed := ("022.4").toList, heading := ("084.4").toList,
              dd := ("23").toList, mon := ("03").toList, yy := ("94").toList },
            (",*XX").toList) := by decide
  unfold decode_sentence
  rw [hg, hr]
  dsimp only
  rw [set_data_from_rmc_eq _ _ (mkRat 224 10) (mkRat 844 10) (by decide) (by decide)]
  norm_num [digitsToNat]
  decide

/-- C6: whenever a sentence matches the GGA pattern, the decode writes only
`satellites_tracked` (always) and `altitude_meters` (when the altitude text
parses; if `float()` raises, the old altitude persists); every other Fix
Record field — validity, time, position texts and hemispheres, speed,
heading, date — is left unchanged. -/
theorem gga_decode_only_sats_alt (st : State) (buf : List Char)
    (g : GgaGroups) (rem : List Char) (h : GGA_DECODE buf = some (g, rem)) :
    decode_sentence st buf = set_data_from_gga st g ∧
    (set_data_from_gga st g).1.valid = st.valid ∧
    (set_data_from_gga st g).1.hour = st.hour ∧
    (set_data_from_gga st g).1.minute = st.minute ∧
    (set_data_from_gga st g).1.second = st.second ∧
    (set_data_from_gga st g).1.milli = st.milli ∧
    (set_data_from_gga st g).1.lat = st.lat ∧
    (set_data_from_gga st g).1.latNS = st.latNS ∧
    (set_data_from_gga st g).1.lon = st.lon ∧
    (set_data_from_gga st g).1.lonEW = st.lonEW ∧
    (set_data_from_gga st g).1.speed = st.speed ∧
    (set_data_from_gga st g).1.heading = st.heading ∧
    (set_data_from_gga st g).1.day = st.day ∧
    (set_data_from_gga st g).1.month = st.month ∧
    (set_data_from_gga st g).1.year = st.year ∧
    (set_data_from_gga st g).1.satellites = digitsToNat g.sats ∧
    (∀ a, parseFloat g.alt = some a → (set_data_from_gga st g).1.altitude = a) ∧
    (parseFloat g.alt = none → (set_data_from_gga st g).1.altitude = st.altitude) := by
  have hd : decode_sentence st buf = set_data_from_gga st g := by
    unfold decode_sentence
    rw [h]
  refine ⟨hd, ?_⟩
  cases hpf : parseFloat g.alt with
  | none => rw [set_data_from_gga_eq_none st g hpf]; simp
  | some a => rw [set_data_from_gga_eq_some st g a hpf]; simp [hpf]

/-- C6 witness: the GGA example sentence (with the three fractional-second
digits the pattern requires) matches, and the decode is exactly
`_set_data_from_gga` on its groups (which by C6 touches only
`satellites`/`altitude`). -/
theorem gga_decode_only_sats_alt_witness :
    GGA_DECODE ("$GNGGA,123519.000,4807.038,N,01131.000,E,1,08,0.9,545.4,M,46.9,M,,*47").toList
      = some ({ hh := ("12").toList, mm := ("35").toList, ss := ("19").toList,
                fff := ("000").toList,
                lat := ("4807.038").toList, latNS := 'N',
                lon := ("01131.000").toList, lonEW := 'E',
                quality := ("1").toList, sats := ("08").toList,
                alt := ("545.4").toList }, ("M,46.9,M,,*47").toList) ∧
    decode_sentence initState
        ("$GNGGA,123519.000,4807.038,N,01131.000,E,1,08,0.9,545.4,M,46.9,M,,*47").toList
      = set_data_from_gga initState
          { hh := ("12").toList, mm := ("35").toList, ss := ("19").toList,
            fff := ("000").toList,
            lat := ("4807.038").toList, latNS := 'N',
            lon := ("01131.000").toList, lonEW := 'E',
            quality := ("1").toList, sats := ("08").toList,
            alt := ("545.4").toList } :=
  ⟨by decide,
   (gga_decode_only_sats_alt initState
      ("$GNGGA,123519.000,4807.038,N,01131.000,E,1,08,0.9,545.4,M,46.9,M,,*47").toList
      { hh := ("12").toList, mm := ("35").toList, ss := ("19").toList,
        fff := ("000").toList,
        lat := ("4807.038").toList, latNS := 'N',
        lon := ("01131.000").toList, lonEW := 'E',
        quality := ("1").toList, sats := ("08").toList,
        alt := ("545.4").toList } (("M,46.9,M,,*47").toList) (by decide)).1⟩

/-- C7: whenever a sentence matches the RMC pattern, `is_valid` is set from
the status letter (`V` gives `false`, `A` gives `true`) while the time,
fractional second and latitude/longitude texts and hemispheres are still
updated from that same sentence, and (when the numeric texts parse, i.e. no
exception) speed, heading and the date are updated too; `satellites` and
`altitude` are untouched. -/
theorem rmc_decode_sets_fields (st : State) (buf : List Char)
    (g : RmcGroups) (rem : List Char) (h : RMC_DECODE buf = some (g, rem)) :
    decode_sentence st buf = set_data_from_rmc st g ∧
    (g.status = 'V' → (set_data_from_rmc st g).1.valid = false) ∧
    (g.status = 'A' → (set_data_from_rmc st g).1.valid = true) ∧
    (set_data_from_rmc st g).1.hour = some (digitsToNat g.hh) ∧
    (set_data_from_rmc st g).1.minute = some (digitsToNat g.mm) ∧
    (set_data_from_rmc st g).1.second = some (digitsToNat g.ss) ∧
    (set_data_from_rmc st g).1.milli = some (digitsToNat g.fff) ∧
    (set_data_from_rmc st g).1.lat = some g.lat ∧
    (set_data_from_rmc st g).1.latNS = some g.latNS ∧
    (set_data_from_rmc st g).1.lon = some g.lon ∧
    (set_data_from_rmc st g).1.lonEW = some g.lonEW ∧
    (set_data_from_rmc st g).1.satellites = st.satellites ∧
    (set_data_from_rmc st g).1.altitude = st.altitude ∧
    ((set_data_from_rmc st g).2 = false →
      (set_data_from_rmc st g).1.speed = parseFloat g.speed ∧
      (set_data_from_rmc st g).1.heading = parseFloat g.heading ∧
      (set_data_from_rmc st g).1.day = some (digitsToNat g.dd) ∧
      (set_data_from_rmc st g).1.month = some (digitsToNat g.mon) ∧
      (set_data_from_rmc st g).1.year = some (digitsToNat g.yy + 2000)) := by
  have hd : decode_sentence st buf = set_data_from_rmc st g := by
    unfold decode_sentence
    rw [gga_none_of_rmc buf (g, rem) h, h]
  refine ⟨hd, ?_⟩
  cases hsp : parseFloat g.speed with
  | none =>
    simp only [set_data_from_rmc, hsp]
    refine ⟨fun hv => by simp [hv], fun hv => by simp [hv], ?_⟩
    simp
  | some sp =>
    cases hhd : parseFloat g.heading with
    | none =>
      simp only [set_data_from_rmc, hsp, hhd]
      refine ⟨fun hv => by simp [hv], fun hv => by simp [hv], ?_⟩
      simp
    | some hd' =>
      simp only [set_data_from_rmc, hsp, hhd]
      refine ⟨fun hv => by simp [hv], fun hv => by simp [hv], ?_⟩
      simp

/-- C7 witness: a concrete void-status (`V`) RMC sentence matches, and the
resulting `is_valid` is `false` even though the sentence's fields are
processed. -/
theorem rmc_decode_sets_fields_witness :
    RMC_DECODE ("$GNRMC,110000.000,V,1111.111,N,02222.222,E,1.0,2.0,010190,,*AB").toList
      = some ({ hh := ("11").toList, mm := ("00").toList, ss := ("00").toList,
                fff := ("000").toList, status := 'V',
                lat := ("1111.111").toList, latNS := 'N',
                lon := ("02222.222").toList, lonEW := 'E',
                speed := ("1.0").toList, heading := ("2.0").toList,
                dd := ("01").toList, mon := ("01").toList, yy := ("90").toList },
              (",*AB").toList) ∧
    (set_data_from_rmc initState
        { hh := ("11").toList, mm := ("00").toList, ss := ("00").toList,
          fff := ("000").toList, status := 'V',
          lat := ("1111.111").toList, latNS := 'N',
          lon := ("02222.222").toList, lonEW := 'E',
          speed := ("1.0").toList, heading := ("2.0").toList,
          dd := ("01").toList, mon := ("01").toList, yy := ("90").toList }).1.valid
      = false :=
  ⟨by decide,
   (rmc_decode_sets_fields initState
      ("$GNRMC,110000.000,V,1111.111,N,02222.222,E,1.0,2.0,010190,,*AB").toList
      { hh := ("11").toList, mm := ("00").toList, ss := ("00").toList,
        fff := ("000").toList, status := 'V',
        lat := ("1111.111").toList, latNS := 'N',
        lon := ("02222.222").toList, lonEW := 'E',
        speed := ("1.0").toList, heading := ("2.0").toList,
        dd := ("01").toList, mon := ("01").toList, yy := ("90").toList }
      ((",*AB").toList) (by decide)).2.1 rfl⟩

/-- C4: `update()` stops looping and returns the current `valid` on a
timeout or a bus error, feeds each successfully read sentence to the
decoder, and when the bus yields sentence `A` then `B` then a timeout the
final state is the one after decoding `B` into the state after decoding
`A`, with the returned flag being that final state's `valid`. -/
theorem update_loop_behaviour :
    (∀ (st : State) (rest : List ReadResult),
       updateLoop st (.timeout :: rest) = some (st, st.valid)) ∧
    (∀ (st : State) (rest : List ReadResult),
       updateLoop st (.unavailable :: rest) = some (st, st.valid)) ∧
    (∀ (st st' : State) (s : List Char) (rest : List ReadResult),
       decode_sentence st s = (st', false) →
       updateLoop st (.ok s :: rest) = updateLoop st' rest) ∧
    (∀ (st stA stB : State) (A B : List Char),
       decode_sentence st A = (stA, false) →
       decode_sentence stA B = (stB, false) →
       updateLoop st [.ok A, .ok B, .timeout] = some (stB, stB.valid)) := by
  have hok : ∀ (st st' : State) (s : List Char) (rest : List ReadResult),
      decode_sentence st s = (st', false) →
      updateLoop st (.ok s :: rest) = updateLoop st' rest := by
    intro st st' s rest hdec
    show (match decode_sentence st s with
          | (st', false) => updateLoop st' rest
          | (_, true) => none) = updateLoop st' rest
    rw [hdec]
  refine ⟨fun st rest => rfl, fun st rest => rfl, hok, ?_⟩
  intro st stA stB A B hA hB
  rw [hok st stA A _ hA, hok stA stB B _ hB]
  rfl

/-- C4 witness: with the bus yielding a void-status sentence A, then the
active example sentence B, then a timeout, `update` returns the post-B state
and its `valid` flag (`true`), not A's. -/
theorem update_loop_behaviour_witness :
    decode_sentence initState
        ("$GNRMC,110000.000,V,1111.111,N,02222.222,E,1.0,2.0,010190,,*AB").toList =
      ({ valid := false, satellites := 0, altitude := 0,
         hour := some 11, minute := some 0, second := some 0, milli := some 0,
         lat := some ("1111.111").toList, latNS := some 'N',
         lon := some ("02222.222").toList, lonEW := some 'E',
         speed := some 1, heading := some 2,
         day := some 1, month := some 1, year := some 2090 }, false) ∧
    decode_sentence
        ({ valid := false, satellites := 0, altitude := 0,
           hour := some 11, minute := some 0, second := some 0, milli := some 0,
           lat := some ("1111.111").toList, latNS := some 'N',
           lon := some ("02222.222").toList, lonEW := some 'E',
           speed := some 1, heading := some 2,
           day := some 1, month := some 1, year := some 2090 })
        ("$GNRMC,123519.000,A,4807.038,N,01131.000,E,022.4,084.4,230394,,*XX").toList =
      ({ valid := true, satellites := 0, altitude := 0,
         hour := some 12, minute := some 35, second := some 19, milli := some 0,
         lat := some ("4807.038").toList, latNS := some 'N',
         lon := some ("01131.000").toList, lonEW := some 'E',
         speed := some (mkRat 224 10), heading := some (mkRat 844 10),
         day := some 23, month := some 3, year := some 2094 }, false) ∧
    updateLoop initState
        [.ok ("$GNRMC,110000.000,V,1111.111,N,02222.222,E,1.0,2.0,010190,,*AB").toList,
         .ok ("$GNRMC,123519.000,A,4807.038,N,01131.000,E,022.4,084.4,230394,,*XX").toList,
         .timeout] =
      some ({ valid := true, satellites := 0, altitude := 0,
              hour := some 12, minute := some 35, second := some 19, milli := some 0,
              lat := some ("4807.038").toList, latNS := some 'N',
              lon := some ("01131.000").toList, lonEW := some 'E',
              speed := some (mkRat 224 10), heading := some (mkRat 844 10),
              day := some 23, month := some 3, year := some 2094 },
            true) :=
  ⟨by decide, by decide,
   update_loop_behaviour.2.2.2 initState
     { valid := false, satellites := 0, altitude := 0,
       hour := some 11, minute := some 0, second := some 0, milli := some 0,
       lat := some ("1111.111").toList, latNS := some 'N',
       lon := some ("02222.222").toList, lonEW := some 'E',
       speed := some 1, heading := some 2,
       day := some 1, month := some 1, year := some 2090 }
     { valid := true, satellites := 0, altitude := 0,
       hour := some 12, minute := some 35, second := some 19, milli := some 0,
       lat := some ("4807.038").toList, latNS := some 'N',
       lon := some ("01131.000").toList, lonEW := some 'E',
       speed := some (mkRat 224 10), heading := some (mkRat 844 10),
       day := some 23, month := some 3, year := some 2094 }
     ("$GNRMC,110000.000,V,1111.111,N,02222.222,E,1.0,2.0,010190,,*AB").toList
     ("$GNRMC,123519.000,A,4807.038,N,01131.000,E,022.4,084.4,230394,,*XX").toList
     (by decide) (by decide)⟩

theorem foldl_xor_lt_256 :
    ∀ (P : List ℕ), (∀ b ∈ P, b < 256) →
      ∀ a, a < 256 → P.foldl (fun x y => x ^^^ y) a < 256 := by
  intro P
  induction P with
  | nil => intro _ a ha; simpa using ha
  | cons b bs ih =>
    intro hP a ha
    simp only [List.foldl_cons]
    refine ih (fun x hx => hP x (List.mem_cons_of_mem _ hx)) _ ?_
    have h1 : a < 2 ^ 8 := by simpa using ha
    have h2 : b < 2 ^ 8 := by simpa using hP b (List.mem_cons_self _ _)
    simpa using Nat.xor_lt_two_pow h1 h2

theorem upperHexDigit_val (n : ℕ) (h : n < 16) :
    isUpperHexCh (upperHexDigit n) = true ∧ hexVal (upperHexDigit n) = n := by
  interval_cases n <;> exact ⟨by decide, by decide⟩

/-- C5: for every byte payload `P`, `send_command(P, add_checksum=True)`
writes exactly the buffer `$` (36), the payload, `*` (42), two uppercase
hexadecimal digit characters whose value is the XOR of all payload bytes,
and `\r\n` (13, 10). -/
theorem send_command_encodes (P : List ℕ) (hP : ∀ b ∈ P, b < 256) :
    ∃ d1 d2 : Char, isUpperHexCh d1 = true ∧ isUpperHexCh d2 = true ∧
      hexVal d1 * 16 + hexVal d2 = nmeaChecksum P ∧
      send_command_buf P true = 36 :: (P ++ [42, d1.toNat, d2.toNat, 13, 10]) := by
  have hc : nmeaChecksum P < 256 := foldl_xor_lt_256 P hP 0 (by norm_num)
  have hhi : nmeaChecksum P / 16 < 16 := Nat.div_lt_of_lt_mul (by omega)
  have hlo : nmeaChecksum P % 16 < 16 := Nat.mod_lt _ (by norm_num)
  refine ⟨upperHexDigit (nmeaChecksum P / 16), upperHexDigit (nmeaChecksum P % 16),
          (upperHexDigit_val _ hhi).1, (upperHexDigit_val _ hlo).1, ?_, ?_⟩
  · rw [(upperHexDigit_val _ hhi).2, (upperHexDigit_val _ hlo).2]
    omega
  · simp [send_command_buf, List.append_assoc]

/-- C5 witness: the cold-boot payload `PMTK103` (bytes 80,77,84,75,49,48,51)
is encoded with its XOR checksum as two uppercase hex digits. -/
theorem send_command_encodes_witness :
    (∀ b ∈ [80, 77, 84, 75, 49, 48, 51], b < 256) ∧
    (∃ d1 d2 : Char, isUpperHexCh d1 = true ∧ isUpperHexCh d2 = true ∧
      hexVal d1 * 16 + hexVal d2 = nmeaChecksum [80, 77, 84, 75, 49, 48, 51] ∧
      send_command_buf [80, 77, 84, 75, 49, 48, 51] true
        = 36 :: ([80, 77, 84, 75, 49, 48, 51] ++ [42, d1.toNat, d2.toNat, 13, 10])) :=
  ⟨by decide, send_command_encodes [80, 77, 84, 75, 49, 48, 51] (by decide)⟩

theorem ppure_stable {α : Type} (v : α) : PStable (ppure v) := by
  intro s v' rem h
  simp only [ppure, Option.some.injEq, Prod.mk.injEq] at h
  obtain ⟨hv, hs⟩ := h
  subst hv
  subst hs
  exact ⟨[], rfl, fun rem' => rfl⟩

theorem pseq_stable {α β : Type} {P : Parser α} {Q : α → Parser β}
    (hP : PStable P) (hQ : ∀ v, PStable (Q v)) : PStable (pseq P Q) := by
  intro s w rem h
  unfold pseq at h
  cases hps : P s with
  | none => rw [hps] at h; exact absurd h (by simp)
  | some vr =>
    obtain ⟨v, r⟩ := vr
    rw [hps] at h
    obtain ⟨pre1, hs1, hst1⟩ := hP s v r hps
    obtain ⟨pre2, hs2, hst2⟩ := hQ v r w rem h
    refine ⟨pre1 ++ pre2, ?_, ?_⟩
    · rw [hs1, hs2, List.append_assoc]
    · intro rem'
      show pseq P Q ((pre1 ++ pre2) ++ rem') = some (w, rem')
      unfold pseq
      rw [List.append_assoc, hst1 (pre2 ++ rem')]
      exact hst2 rem'

theorem plits_complete : ∀ (ls rem : List Char), plits ls (ls ++ rem) = some ((), rem) := by
  intro ls
  induction ls with
  | nil => intro rem; rfl
  | cons c cs ih => intro rem; simp [plits, ih]

theorem plits_stable (ls : List Char) : PStable (plits ls) := by
  intro s v rem h
  obtain ⟨⟩ := v
  exact ⟨ls, plits_sound ls s rem h, fun rem' => plits_complete ls rem'⟩

theorem pclass1_stable (cl : Char → Bool) : PStable (pclass1 cl) := by
  intro s v rem h
  cases s with
  | nil => simp [pclass1] at h
  | cons c r =>
    by_cases hc : cl c
    · simp only [pclass1, if_pos hc, Option.some.injEq, Prod.mk.injEq] at h
      obtain ⟨hv, hr⟩ := h
      subst hv
      subst hr
      exact ⟨[c], rfl, fun rem' => by simp [pclass1, hc]⟩
    · simp [pclass1, hc] at h

theorem pdigits_stable (n : ℕ) : PStable (pdigits n) := by
  intro s v rem h
  unfold pdigits at h
  by_cases hcond : (s.take n).length = n ∧ (s.take n).all Char.isDigit
  · rw [if_pos hcond] at h
    simp only [Option.some.injEq, Prod.mk.injEq] at h
    obtain ⟨hv, hr⟩ := h
    subst hv
    subst hr
    refine ⟨s.take n, (List.take_append_drop n s).symm, ?_⟩
    intro rem'
    have ht : (s.take n ++ rem').take n = s.take n := List.take_left' hcond.1
    have hd : (s.take n ++ rem').drop n = rem' := List.drop_left' hcond.1
    unfold pdigits
    rw [ht, hd, if_pos ⟨hcond.1, hcond.2⟩]
  · rw [if_neg hcond] at h
    cases h

theorem takeWhile_dropWhile_append (cl : Char → Bool) :
    ∀ (a : List Char), a.all cl → ∀ (d : Char), cl d = false → ∀ r,
      (a ++ d :: r).takeWhile cl = a ∧ (a ++ d :: r).dropWhile cl = d :: r := by
  intro a
  induction a with
  | nil =>
    intro _ d hd r
    constructor <;> simp [List.takeWhile_cons, List.dropWhile_cons, hd]
  | cons c cs ih =>
    intro hall d hd r
    rw [List.all_cons, Bool.and_eq_true] at hall
    have h1 := ih hall.2 d hd r
    constructor <;> simp [List.takeWhile_cons, List.dropWhile_cons, hall.1, h1.1, h1.2]

theorem pfield_stable (cl : Char → Bool) (d : Char) (hd : cl d = false) :
    PStable (pfield cl d) := by
  intro s v rem h
  unfold pfield at h
  by_cases he : (s.takeWhile cl).isEmpty
  · rw [if_pos he] at h
    cases h
  · rw [if_neg he] at h
    cases hdw : s.dropWhile cl with
    | nil => rw [hdw] at h; cases h
    | cons d' r =>
      rw [hdw] at h
      dsimp only at h
      by_cases hdd : d' = d
      · subst hdd
        rw [if_pos rfl] at h
        simp only [Option.some.injEq, Prod.mk.injEq] at h
        obtain ⟨hv, hr⟩ := h
        subst hv
        subst hr
        have hsplit : s = s.takeWhile cl ++ d' :: r := by
          conv_lhs => rw [← List.takeWhile_append_dropWhile (p := cl) (l := s)]
          rw [hdw]
        have hall : (s.takeWhile cl).all cl := by
          rw [List.all_eq_true]
          intro x hx
          exact List.mem_takeWhile_imp hx
        refine ⟨s.takeWhile cl ++ [d'], by simpa using hsplit, ?_⟩
        intro rem'
        have h1 := takeWhile_dropWhile_append cl (s.takeWhile cl) hall d' hd rem'
        have heq : (s.takeWhile cl ++ [d']) ++ rem' = s.takeWhile cl ++ d' :: rem' := by
          simp
        unfold pfield
        rw [heq, h1.1, h1.2]
        dsimp only
        rw [if_neg he, if_pos rfl]
      · rw [if_neg hdd] at h
        cases h

theorem GGA_DECODE_stable : PStable GGA_DECODE := by
  unfold GGA_DECODE
  refine pseq_stable (plits_stable _) (fun _ => ?_)
  refine pseq_stable (pdigits_stable _) (fun hh => ?_)
  refine pseq_stable (pdigits_stable _) (fun mm => ?_)
  refine pseq_stable (pdigits_stable _) (fun ss => ?_)
  refine pseq_stable (pclass1_stable _) (fun _ => ?_)
  refine pseq_stable (pdigits_stable _) (fun fff => ?_)
  refine pseq_stable (pclass1_stable _) (fun _ => ?_)
  refine pseq_stable (pfield_stable _ _ (by decide)) (fun latA => ?_)
  refine pseq_stable (pfield_stable _ _ (by decide)) (fun latB => ?_)
  refine pseq_stable (pclass1_stable _) (fun latNS => ?_)
  refine pseq_stable (pclass1_stable _) (fun _ => ?_)
  refine pseq_stable (pfield_stable _ _ (by decide)) (fun lonA => ?_)
  refine pseq_stable (pfield_stable _ _ (by decide)) (fun lonB => ?_)
  refine pseq_stable (pclass1_stable _) (fun lonEW => ?_)
  refine pseq_stable (pclass1_stable _) (fun _ => ?_)
  refine pseq_stable (pdigits_stable _) (fun quality => ?_)
  refine pseq_stable (pclass1_stable _) (fun _ => ?_)
  refine pseq_stable (pfield_stable _ _ (by decide)) (fun sats => ?_)
  refine pseq_stable (pfield_stable _ _ (by decide)) (fun _hdop => ?_)
  refine pseq_stable (pfield_stable _ _ (by decide)) (fun alt => ?_)
  exact ppure_stable _

theorem RMC_DECODE_stable : PStable RMC_DECODE := by
  unfold RMC_DECODE
  refine pseq_stable (plits_stable _) (fun _ => ?_)
  refine pseq_stable (pdigits_stable _) (fun hh => ?_)
  refine pseq_stable (pdigits_stable _) (fun mm => ?_)
  refine pseq_stable (pdigits_stable _) (fun ss => ?_)
  refine pseq_stable (pclass1_stable _) (fun _ => ?_)
  refine pseq_stable (pdigits_stable _) (fun fff => ?_)
  refine pseq_stable (pclass1_stable _) (fun _ => ?_)
  refine pseq_stable (pclass1_stable _) (fun status => ?_)
  refine pseq_stable (pclass1_stable _) (fun _ => ?_)
  refine pseq_stable (pfield_stable _ _ (by decide)) (fun latA => ?_)
  refine pseq_stable (pfield_stable _ _ (by decide)) (fun latB => ?_)
  refine pseq_stable (pclass1_stable _) (fun latNS => ?_)
  refine pseq_stable (pclass1_stable _) (fun _ => ?_)
  refine pseq_stable (pfield_stable _ _ (by decide)) (fun lonA => ?_)
  refine pseq_stable (pfield_stable _ _ (by decide)) (fun lonB => ?_)
  refine pseq_stable (pclass1_stable _) (fun lonEW => ?_)
  refine pseq_stable (pclass1_stable _) (fun _ => ?_)
  refine pseq_stable (pfield_stable _ _ (by decide)) (fun speed => ?_)
  refine pseq_stable (pfield_stable _ _ (by decide)) (fun heading => ?_)
  refine pseq_stable (pdigits_stable _) (fun dd => ?_)
  refine pseq_stable (pdigits_stable _) (fun mon => ?_)
  refine pseq_stable (pdigits_stable _) (fun yy => ?_)
  refine pseq_stable (pclass1_stable _) (fun _ => ?_)
  exact ppure_stable _


/-- C10: the decoder never validates the NMEA checksum.  If a sentence
splits as a matched prefix `c` and ignored remainder `r`, then replacing the
remainder by anything at all — a missing `*XX` suffix, or a wrong checksum —
yields the same match groups and the identical Fix Record update. -/
theorem checksum_not_validated :
    (∀ (c r r' : List Char) (g : GgaGroups) (st : State),
       GGA_DECODE (c ++ r) = some (g, r) →
       GGA_DECODE (c ++ r') = some (g, r') ∧
       decode_sentence st (c ++ r') = set_data_from_gga st g) ∧
    (∀ (c r r' : List Char) (g : RmcGroups) (st : State),
       RMC_DECODE (c ++ r) = some (g, r) →
       RMC_DECODE (c ++ r') = some (g, r') ∧
       decode_sentence st (c ++ r') = set_data_from_rmc st g) := by
  constructor
  · intro c r r' g st h
    obtain ⟨pre, hs, hst⟩ := GGA_DECODE_stable _ _ _ h
    have hcp : c = pre := List.append_cancel_right hs
    subst hcp
    have h1 := hst r'
    refine ⟨h1, ?_⟩
    unfold decode_sentence
    rw [h1]
  · intro c r r' g st h
    obtain ⟨pre, hs, hst⟩ := RMC_DECODE_stable _ _ _ h
    have hcp : c = pre := List.append_cancel_right hs
    subst hcp
    have h1 := hst r'
    refine ⟨h1, ?_⟩
    unfold decode_sentence
    rw [gga_none_of_rmc _ _ h1, h1]


/-- C10 witness: the GGA example sentence with its correct checksum `*47`
matches, and replacing the suffix by the wrong checksum `*00` produces the
same groups and the same Fix Record update. -/
theorem checksum_not_validated_witness :
    GGA_DECODE (("$GNGGA,123519.000,4807.038,N,01131.000,E,1,08,0.9,545.4,").toList
        ++ ("M,46.9,M,,*47").toList)
      = some ({ hh := ("12").toList, mm := ("35").toList, ss := ("19").toList,
                fff := ("000").toList,
                lat := ("4807.038").toList, latNS := 'N',
                lon := ("01131.000").toList, lonEW := 'E',
                quality := ("1").toList, sats := ("08").toList,
                alt := ("545.4").toList }, ("M,46.9,M,,*47").toList) ∧
    (GGA_DECODE (("$GNGGA,123519.000,4807.038,N,01131.000,E,1,08,0.9,545.4,").toList
        ++ ("M,46.9,M,,*00").toList)
      = some ({ hh := ("12").toList, mm := ("35").toList, ss := ("19").toList,
                fff := ("000").toList,
                lat := ("4807.038").toList, latNS := 'N',
                lon := ("01131.000").toList, lonEW := 'E',
                quality := ("1").toList, sats := ("08").toList,
                alt := ("545.4").toList }, ("M,46.9,M,,*00").toList) ∧
     decode_sentence initState
        (("$GNGGA,123519.000,4807.038,N,01131.000,E,1,08,0.9,545.4,").toList
          ++ ("M,46.9,M,,*00").toList)
      = set_data_from_gga initState
          { hh := ("12").toList, mm := ("35").toList, ss := ("19").toList,
            fff := ("000").toList,
            lat := ("4807.038").toList, latNS := 'N',
            lon := ("01131.000").toList, lonEW := 'E',
            quality := ("1").toList, sats := ("08").toList,
            alt := ("545.4").toList }) :=
  ⟨by decide,
   checksum_not_validated.1
     (("$GNGGA,123519.000,4807.038,N,01131.000,E,1,08,0.9,545.4,").toList)
     (("M,46.9,M,,*47").toList) (("M,46.9,M,,*00").toList)
     { hh := ("12").toList, mm := ("35").toList, ss := ("19").toList,
       fff := ("000").toList,
       lat := ("4807.038").toList, latNS := 'N',
       lon := ("01131.000").toList, lonEW := 'E',
       quality := ("1").toList, sats := ("08").toList,
       alt := ("545.4").toList }
     initState (by decide)⟩

theorem rsAux_skip (dl : ℕ) :
    ∀ (g rest : List (ℕ × Char)),
      (∀ p ∈ g, p.2 ≠ '$' ∧ p.1 < dl) →
      readSentenceAux (g ++ rest) dl [] = readSentenceAux rest dl [] := by
  intro g
  induction g with
  | nil => intro rest _; rfl
  | cons p g' ih =>
    intro rest hg
    obtain ⟨tm, c⟩ := p
    have h1 := hg (tm, c) (List.mem_cons_self _ _)
    have hcond : (List.isEmpty ([] : List Char) && (c != '$')) = true := by
      simp [bne_iff_ne, h1.1]
    simp only [List.cons_append, readSentenceAux]
    rw [if_pos h1.2, if_pos hcond]
    exact ih rest (fun q hq => hg q (List.mem_cons_of_mem _ hq))

theorem rsAux_start (dl tk : ℕ) (htk : tk < dl) (rest : List (ℕ × Char)) :
    readSentenceAux ((tk, '$') :: rest) dl [] = readSentenceAux rest (dl + 100) ['$'] := by
  simp only [readSentenceAux]
  rw [if_pos htk]
  have hc3 : endsCRLF ['$'] = false := by decide
  simp [hc3]


theorem rsAux_run :
    ∀ (run rest : List (ℕ × Char)) (dl : ℕ) (buf : List Char),
      buf ≠ [] →
      endsCRLF buf = false →
      (∀ p ∈ run, p.1 < dl) →
      endsCRLF (buf ++ run.map Prod.snd) = true →
      (∀ r1 r2, run = r1 ++ r2 → r2 ≠ [] → endsCRLF (buf ++ r1.map Prod.snd) = false) →
      readSentenceAux (run ++ rest) dl buf = some (some (cleanBuf (buf ++ run.map Prod.snd))) := by
  intro run
  induction run with
  | nil =>
    intro rest dl buf hbuf hnot htimes hterm hmin
    rw [List.map_nil, List.append_nil] at hterm
    rw [hterm] at hnot
    cases hnot
  | cons p run' ih =>
    intro rest dl buf hbuf hnot htimes hterm hmin
    obtain ⟨tm, c⟩ := p
    have hbe : buf.isEmpty = false := by
      cases buf with
      | nil => exact absurd rfl hbuf
      | cons _ _ => rfl
    simp only [List.cons_append, readSentenceAux]
    rw [if_pos (htimes (tm, c) (List.mem_cons_self _ _))]
    rw [hbe]
    simp only [Bool.false_and, Bool.false_eq_true, if_false]
    by_cases hcr : endsCRLF (buf ++ [c]) = true
    · cases run' with
      | nil =>
        rw [if_pos hcr]
        simp
      | cons q run'' =>
        exfalso
        have hx := hmin [(tm, c)] (q :: run'') rfl (by simp)
        simp only [List.map_cons, List.map_nil] at hx
        rw [hcr] at hx
        cases hx
    · rw [if_neg hcr]
      rw [Bool.not_eq_true] at hcr
      have hres := ih rest dl (buf ++ [c]) (by simp) hcr
        (fun q hq => htimes q (List.mem_cons_of_mem _ hq))
        (by simpa [List.append_assoc] using hterm)
        (fun r1 r2 hsplit hne => by
          have hx := hmin ((tm, c) :: r1) r2 (by rw [hsplit]; rfl) hne
          simpa [List.append_assoc] using hx)
      simp only [List.append_eq]
      rw [hres]
      simp [List.append_assoc]


theorem rsAux_run_inv :
    ∀ (tr : List (ℕ × Char)) (dl : ℕ) (buf out : List Char),
      buf ≠ [] →
      endsCRLF buf = false →
      readSentenceAux tr dl buf = some (some out) →
      ∃ run rest, tr = run ++ rest ∧
        (∀ p ∈ run, p.1 < dl) ∧
        endsCRLF (buf ++ run.map Prod.snd) = true ∧
        (∀ r1 r2, run = r1 ++ r2 → r2 ≠ [] → endsCRLF (buf ++ r1.map Prod.snd) = false) ∧
        out = cleanBuf (buf ++ run.map Prod.snd) := by
  intro tr
  induction tr with
  | nil =>
    intro dl buf out _ _ h
    cases h
  | cons p tr' ih =>
    intro dl buf out hbuf hnot h
    obtain ⟨tm, c⟩ := p
    have hbe : buf.isEmpty = false := by
      cases buf with
      | nil => exact absurd rfl hbuf
      | cons _ _ => rfl
    simp only [readSentenceAux] at h
    by_cases htm : tm < dl
    · rw [if_pos htm, hbe] at h
      simp only [Bool.false_and, Bool.false_eq_true, if_false] at h
      by_cases hcr : endsCRLF (buf ++ [c]) = true
      · rw [if_pos hcr] at h
        simp only [Option.some.injEq] at h
        refine ⟨[(tm, c)], tr', rfl, ?_, ?_, ?_, ?_⟩
        · intro q hq
          rw [List.mem_singleton] at hq
          subst hq
          exact htm
        · simpa using hcr
        · intro r1 r2 hsplit hne
          cases r1 with
          | nil => simpa using hnot
          | cons q r1' =>
            exfalso
            cases r2 with
            | nil => exact hne rfl
            | cons s2 r2' =>
              have hlen := congrArg List.length hsplit
              simp only [List.length_cons, List.length_append, List.length_nil] at hlen
              omega
        · simpa using h.symm
      · rw [if_neg hcr] at h
        rw [Bool.not_eq_true] at hcr
        obtain ⟨run', rest, htr', htimes, hterm, hmin, hout⟩ :=
          ih dl (buf ++ [c]) out (by simp) hcr h
        refine ⟨(tm, c) :: run', rest, by rw [List.cons_append, htr'], ?_, ?_, ?_, ?_⟩
        · intro q hq
          rcases List.mem_cons.1 hq with hq | hq
          · subst hq; exact htm
          · exact htimes q hq
        · simpa [List.append_assoc] using hterm
        · intro r1 r2 hsplit hne
          cases r1 with
          | nil => simpa using hnot
          | cons q r1' =>
            rw [List.cons_append] at hsplit
            injection hsplit with hq hsplit'
            have hx := hmin r1' r2 hsplit' hne
            subst hq
            simpa [List.append_assoc] using hx
        · simpa [List.append_assoc] using hout
    · rw [if_neg htm] at h
      cases h

theorem rsAux_skip_inv :
    ∀ (tr : List (ℕ × Char)) (dl : ℕ) (out : List Char),
      readSentenceAux tr dl [] = some (some out) →
      ∃ g tk rest, tr = g ++ (tk, '$') :: rest ∧
        (∀ p ∈ g, p.2 ≠ '$' ∧ p.1 < dl) ∧ tk < dl ∧
        readSentenceAux rest (dl + 100) ['$'] = some (some out) := by
  intro tr
  induction tr with
  | nil =>
    intro dl out h
    cases h
  | cons p tr' ih =>
    intro dl out h
    obtain ⟨tm, c⟩ := p
    by_cases htm : tm < dl
    · by_cases hc : c = '$'
      · subst hc
        rw [rsAux_start dl tm htm tr'] at h
        exact ⟨[], tm, tr', rfl, by simp, htm, h⟩
      · have hcond : (List.isEmpty ([] : List Char) && (c != '$')) = true := by
          simp [bne_iff_ne, hc]
        simp only [readSentenceAux] at h
        rw [if_pos htm, if_pos hcond] at h
        obtain ⟨g, tk, rest, htr', hg, htk, hrec⟩ := ih dl out h
        refine ⟨(tm, c) :: g, tk, rest, by rw [List.cons_append, htr'], ?_, htk, hrec⟩
        intro q hq
        rcases List.mem_cons.1 hq with hq | hq
        · subst hq; exact ⟨hc, htm⟩
        · exact hg q hq
    · simp only [readSentenceAux] at h
      rw [if_neg htm] at h
      cases h


theorem rsAux_read_ne_none :
    ∀ (tr : List (ℕ × Char)) (dl : ℕ) (buf : List Char), buf ≠ [] →
      (∃ p ∈ tr, dl ≤ p.1) → readSentenceAux tr dl buf ≠ none := by
  intro tr
  induction tr with
  | nil =>
    intro dl buf _ hbig
    obtain ⟨p, hp, _⟩ := hbig
    cases hp
  | cons p tr' ih =>
    intro dl buf hbuf hbig
    obtain ⟨tm, c⟩ := p
    have hbe : buf.isEmpty = false := by
      cases buf with
      | nil => exact absurd rfl hbuf
      | cons _ _ => rfl
    simp only [readSentenceAux]
    by_cases htm : tm < dl
    · rw [if_pos htm, hbe]
      simp only [Bool.false_and, Bool.false_eq_true, if_false]
      have hbig' : ∃ p ∈ tr', dl ≤ p.1 := by
        obtain ⟨q, hq, hqt⟩ := hbig
        rcases List.mem_cons.1 hq with hq | hq
        · subst hq; exact absurd htm (by simpa using hqt)
        · exact ⟨q, hq, hqt⟩
      by_cases hcr : endsCRLF (buf ++ [c]) = true
      · rw [if_pos hcr]
        simp
      · rw [if_neg hcr]
        exact ih dl (buf ++ [c]) (by simp) hbig'
    · rw [if_neg htm]
      simp

theorem rsAux_skip_ne_none :
    ∀ (tr : List (ℕ × Char)) (dl : ℕ),
      (∃ p ∈ tr, dl + 100 ≤ p.1) → readSentenceAux tr dl [] ≠ none := by
  intro tr
  induction tr with
  | nil =>
    intro dl hbig
    obtain ⟨p, hp, _⟩ := hbig
    cases hp
  | cons p tr' ih =>
    intro dl hbig
    obtain ⟨tm, c⟩ := p
    by_cases htm : tm < dl
    · have hbig' : ∃ p ∈ tr', dl + 100 ≤ p.1 := by
        obtain ⟨q, hq, hqt⟩ := hbig
        rcases List.mem_cons.1 hq with hq | hq
        · subst hq
          exact absurd htm (by simp at hqt ⊢; omega)
        · exact ⟨q, hq, hqt⟩
      by_cases hc : c = '$'
      · subst hc
        rw [rsAux_start dl tm htm tr']
        refine rsAux_read_ne_none tr' (dl + 100) ['$'] (by simp) ?_
        obtain ⟨q, hq, hqt⟩ := hbig'
        exact ⟨q, hq, hqt⟩
      · have hcond : (List.isEmpty ([] : List Char) && (c != '$')) = true := by
          simp [bne_iff_ne, hc]
        simp only [readSentenceAux]
        rw [if_pos htm, if_pos hcond]
        exact ih dl hbig'
    · simp only [readSentenceAux]
      rw [if_neg htm]
      simp

theorem read_sentence_success (trace : List (ℕ × Char)) (T0 : ℕ) (out : List Char)
    (h : SpecSuccess trace T0 out) : read_sentence trace T0 = some (some out) := by
  obtain ⟨g, tk, run, rest, htr, hg, htk, hruntimes, hterm, hmin, hout⟩ := h
  subst htr
  subst hout
  unfold read_sentence
  rw [show g ++ (tk, '$') :: run ++ rest = g ++ ((tk, '$') :: (run ++ rest)) by simp]
  rw [rsAux_skip T0 g _ hg, rsAux_start T0 tk htk]
  exact rsAux_run run rest (T0 + 100) ['$'] (by simp) (by decide) hruntimes hterm hmin


/-- C3: on any timed byte trace containing a read at or past the extended
deadline (so the loop terminates within the trace), `read_sentence` returns
a sentence exactly when a complete `\r\n`-terminated run beginning with `$`
arrives in time — garbage and the first `$` before the original deadline,
the rest of the run before the deadline extended by the fixed +100 ms grace
gained when the `$` was accepted — and the returned text is that run cleaned
of the terminator and stray newlines; otherwise it raises `GPSTimeoutError`,
discarding any partial data. -/
theorem read_sentence_correct (trace : List (ℕ × Char)) (T0 : ℕ)
    (hterm : ∃ p ∈ trace, T0 + 100 ≤ p.1) :
    (∀ out, read_sentence trace T0 = some (some out) ↔ SpecSuccess trace T0 out) ∧
    (read_sentence trace T0 = some none ↔ ¬ ∃ out, SpecSuccess trace T0 out) := by
  have hback : ∀ out, read_sentence trace T0 = some (some out) → SpecSuccess trace T0 out := by
    intro out h
    unfold read_sentence at h
    obtain ⟨g, tk, rest, htr, hg, htk, hrec⟩ := rsAux_skip_inv trace T0 out h
    obtain ⟨run, rest', hrest, htimes, hterm', hmin, hout⟩ :=
      rsAux_run_inv rest (T0 + 100) ['$'] out (by simp) (by decide) hrec
    refine ⟨g, tk, run, rest', ?_, hg, htk, htimes, hterm', hmin, hout⟩
    rw [htr, hrest]
    simp
  have hne : read_sentence trace T0 ≠ none := rsAux_skip_ne_none trace T0 hterm
  refine ⟨fun out => ⟨hback out, read_sentence_success trace T0 out⟩, ?_, ?_⟩
  · intro h hex
    obtain ⟨out, hout⟩ := hex
    rw [read_sentence_success trace T0 out hout] at h
    simp at h
  · intro h
    cases hres : read_sentence trace T0 with
    | none => exact absurd hres hne
    | some o =>
      cases o with
      | none => rfl
      | some out => exact absurd ⟨out, hback out hres⟩ h



/-- C3 witness: trace with one garbage byte, then `$G\r\n` arriving in time,
then a late filler read; the sentence `$G` is returned, matching the spec
predicate. -/
theorem read_sentence_correct_witness :
    (∃ p ∈ [((0 : ℕ), 'G'), (1, '$'), (2, 'G'), (3, '\r'), (4, '\n'), (200, 'x')],
       50 + 100 ≤ p.1) ∧
    (read_sentence [((0 : ℕ), 'G'), (1, '$'), (2, 'G'), (3, '\r'), (4, '\n'), (200, 'x')] 50
        = some (some (("$G").toList)) ↔
      SpecSuccess [((0 : ℕ), 'G'), (1, '$'), (2, 'G'), (3, '\r'), (4, '\n'), (200, 'x')] 50
        (("$G").toList)) ∧
    read_sentence [((0 : ℕ), 'G'), (1, '$'), (2, 'G'), (3, '\r'), (4, '\n'), (200, 'x')] 50
      = some (some (("$G").toList)) :=
  ⟨by decide,
   (read_sentence_correct
      [((0 : ℕ), 'G'), (1, '$'), (2, 'G'), (3, '\r'), (4, '\n'), (200, 'x')] 50
      (by decide)).1 (("$G").toList),
   by decide⟩

end PA1010
